import Mathlib

/-!
Verification of the MacaroniAudioDriver device lifecycle
(src/MacaroniAudioExtension/MacaroniAudioDriver.cpp).

The driver code is a linear sequence of calls into the AudioDriverKit and
DriverKit frameworks.  The embedding models the driver ivars block as an
explicit record, every fallible external framework call as an outcome
supplied by an environment record, and each lifecycle entry point as a pure
function from the environment and the current ivars to a status code, the
new ivars, and the list of external calls that were issued.
-/

/- Status codes (kern_return_t values used by the driver). -/
def kIOReturnSuccess : Nat := 0

def kIOReturnNoMemory : Nat := 0xE00002BD

/- Constants from the top of MacaroniAudioDriver.cpp. -/
def kSampleRate : Nat := 48000

def kNumChannels : Nat := 2

def kBitsPerChannel : Nat := 32

def kBytesPerFrame : Nat := (kBitsPerChannel / 8) * kNumChannels

def kBufferFrames : Nat := 512

def kInputStreamObjectID : Nat := 2

def kOutputStreamObjectID : Nat := 3

def kVolumeControlObjectID : Nat := 4

def kMuteControlObjectID : Nat := 5

/- Format constants from AudioDriverKit used in the format literal. -/
def kIOUserAudioFormatLinearPCM : Nat := 0x6C70636D

def kIOUserAudioFormatFlagIsFloat : Nat := 1

def kIOUserAudioFormatFlagIsPacked : Nat := 8

inductive StreamDirection
  | input
  | output
deriving DecidableEq

/- References to the two stream objects held in the ivars block; the device
object stores references, mirroring the pointer sharing in the source. -/
inductive StreamRef
  | outputS
  | inputS
deriving DecidableEq

inductive ControlRef
  | volumeC
  | muteC
deriving DecidableEq

inductive BufferRef
  | outputB
  | inputB
deriving DecidableEq

/- IOUserAudioStreamBasicDescription, as filled in MacaroniAudioDriver::Start. -/
structure AudioFormat where
  mSampleRate : Nat
  mFormatID : Nat
  mFormatFlags : Nat
  mBytesPerPacket : Nat
  mFramesPerPacket : Nat
  mBytesPerFrame : Nat
  mChannelsPerFrame : Nat
  mBitsPerChannel : Nat
deriving DecidableEq

structure AudioStream where
  direction : StreamDirection
  objectID : Nat
  name : String
  availableFormats : List AudioFormat
  currentFormat : Option AudioFormat
  ioBuffer : Option BufferRef
deriving DecidableEq

structure MemBuffer where
  length : Nat
deriving DecidableEq

structure LevelControlRange where
  minDb : ℚ
  maxDb : ℚ
deriving DecidableEq

inductive LevelControlType
  | volume
deriving DecidableEq

structure LevelControl where
  isSettable : Bool
  value : ℚ
  range : LevelControlRange
  ctype : LevelControlType
  objectID : Nat
deriving DecidableEq

inductive BooleanControlType
  | mute
deriving DecidableEq

structure BooleanControl where
  isSettable : Bool
  value : Bool
  ctype : BooleanControlType
  objectID : Nat
deriving DecidableEq

structure AudioDevice where
  uid : String
  name : String
  modelUID : String
  manufacturer : String
  canBeDefault : Bool
  canBeDefaultForSystemSounds : Bool
  sampleRate : Nat
  zeroTimeStampPeriod : Nat
  streams : List StreamRef
  controls : List ControlRef
deriving DecidableEq

/- The MacaroniAudioDriver_IVars block. -/
structure IVars where
  audioDevice : Option AudioDevice
  inputStream : Option AudioStream
  outputStream : Option AudioStream
  volumeControl : Option LevelControl
  muteControl : Option BooleanControl
  inputBuffer : Option MemBuffer
  outputBuffer : Option MemBuffer
  volumeLevel : ℚ
  isMuted : Bool
  isRunning : Bool
deriving DecidableEq

/- The ivars block right after a successful MacaroniAudioDriver::init. -/
def initIVars : IVars :=
  { audioDevice := none
    inputStream := none
    outputStream := none
    volumeControl := none
    muteControl := none
    inputBuffer := none
    outputBuffer := none
    volumeLevel := 1
    isMuted := false
    isRunning := false }

/- External calls the driver issues into the frameworks, in the order the
source issues them. -/
inductive ExtCall
  | superStartCall
  | deviceCreate
  | streamCreate (d : StreamDirection)
  | levelControlCreate
  | booleanControlCreate
  | addStream (r : StreamRef)
  | addControl (r : ControlRef)
  | addObjectCall
  | bufferCreate (b : BufferRef)
  | setIOMemoryDescriptor (r : StreamRef)
  | ioStart
  | registerService
  | ioStop
  | removeObjectCall
  | superStopCall
deriving DecidableEq

/- The fixed sequence of external calls MacaroniAudioDriver::Start issues
when every step succeeds. -/
def callSeq : List ExtCall :=
  [ ExtCall.superStartCall,
    ExtCall.deviceCreate,
    ExtCall.streamCreate StreamDirection.output,
    ExtCall.streamCreate StreamDirection.input,
    ExtCall.levelControlCreate,
    ExtCall.booleanControlCreate,
    ExtCall.addStream StreamRef.outputS,
    ExtCall.addStream StreamRef.inputS,
    ExtCall.addControl ControlRef.volumeC,
    ExtCall.addControl ControlRef.muteC,
    ExtCall.addObjectCall,
    ExtCall.bufferCreate BufferRef.outputB,
    ExtCall.bufferCreate BufferRef.inputB,
    ExtCall.setIOMemoryDescriptor StreamRef.outputS,
    ExtCall.setIOMemoryDescriptor StreamRef.inputS,
    ExtCall.ioStart,
    ExtCall.registerService ]

/- Outcomes of the fallible external calls made during Start, supplied by
the host and frameworks.  Create calls either return an object or null;
status calls return a kern_return_t code. -/
structure StartEnv where
  superStartStatus : Nat
  deviceCreateOK : Bool
  outputStreamCreateOK : Bool
  inputStreamCreateOK : Bool
  volumeControlCreateOK : Bool
  muteControlCreateOK : Bool
  addOutputStreamStatus : Nat
  addInputStreamStatus : Nat
  addVolumeControlStatus : Nat
  addMuteControlStatus : Nat
  addObjectStatus : Nat
  outputBufferCreateStatus : Nat
  inputBufferCreateStatus : Nat
  setOutputIOMemStatus : Nat
  setInputIOMemStatus : Nat
  ioStartStatus : Nat

/- The stream format literal built in Start. -/
def deviceFormat : AudioFormat :=
  { mSampleRate := kSampleRate
    mFormatID := kIOUserAudioFormatLinearPCM
    mFormatFlags := kIOUserAudioFormatFlagIsFloat ||| kIOUserAudioFormatFlagIsPacked
    mBytesPerPacket := kBytesPerFrame
    mFramesPerPacket := 1
    mBytesPerFrame := kBytesPerFrame
    mChannelsPerFrame := kNumChannels
    mBitsPerChannel := kBitsPerChannel }

/- The device object after IOUserAudioDevice::Create and the Set calls. -/
def device0 : AudioDevice :=
  { uid := "com.macaroni.audio.device"
    name := "Macaroni Audio"
    modelUID := "com.macaroni.audio.model"
    manufacturer := "Macaroni"
    canBeDefault := true
    canBeDefaultForSystemSounds := true
    sampleRate := kSampleRate
    zeroTimeStampPeriod := kBufferFrames
    streams := []
    controls := [] }

/- The output stream after Create, SetName, SetAvailableStreamFormats and
SetCurrentStreamFormat. -/
def outputStream0 : AudioStream :=
  { direction := StreamDirection.output
    objectID := kOutputStreamObjectID
    name := "Macaroni Output"
    availableFormats := [deviceFormat]
    currentFormat := some deviceFormat
    ioBuffer := none }

def inputStream0 : AudioStream :=
  { direction := StreamDirection.input
    objectID := kInputStreamObjectID
    name := "Macaroni Input"
    availableFormats := [deviceFormat]
    currentFormat := some deviceFormat
    ioBuffer := none }

/- The volume control created with range -96.0 dB to 0.0 dB, initial 0.0. -/
def volumeControl0 : LevelControl :=
  { isSettable := true
    value := 0
    range := { minDb := -96, maxDb := 0 }
    ctype := LevelControlType.volume
    objectID := kVolumeControlObjectID }

def muteControl0 : BooleanControl :=
  { isSettable := true
    value := false
    ctype := BooleanControlType.mute
    objectID := kMuteControlObjectID }

/- A buffer created by IOBufferMemoryDescriptor::Create with
bufferSize = kBufferFrames * kBytesPerFrame bytes. -/
def ioBuffer0 : MemBuffer :=
  { length := kBufferFrames * kBytesPerFrame }

/- AddStream on the device held in the ivars block appends a stream
reference to the device. -/
def deviceAddStream (iv : IVars) (r : StreamRef) : IVars :=
  match iv.audioDevice with
  | some d => { iv with audioDevice := some { d with streams := d.streams ++ [r] } }
  | none => iv

def deviceAddControl (iv : IVars) (r : ControlRef) : IVars :=
  match iv.audioDevice with
  | some d => { iv with audioDevice := some { d with controls := d.controls ++ [r] } }
  | none => iv

/- SetIOMemoryDescriptor binds a buffer to the given stream. -/
def streamBindBuffer (iv : IVars) (r : StreamRef) (b : BufferRef) : IVars :=
  match r with
  | StreamRef.outputS =>
      { iv with outputStream := iv.outputStream.map (fun s => { s with ioBuffer := some b }) }
  | StreamRef.inputS =>
      { iv with inputStream := iv.inputStream.map (fun s => { s with ioBuffer := some b }) }

/- Intermediate ivars states after each successful mutation step of Start. -/
def stateAfterDevice (iv : IVars) : IVars :=
  { iv with audioDevice := some device0 }

def stateAfterOutputStream (iv : IVars) : IVars :=
  { stateAfterDevice iv with outputStream := some outputStream0 }

def stateAfterInputStream (iv : IVars) : IVars :=
  { stateAfterOutputStream iv with inputStream := some inputStream0 }

def stateAfterVolumeControl (iv : IVars) : IVars :=
  { stateAfterInputStream iv with volumeControl := some volumeControl0 }

def stateAfterMuteControl (iv : IVars) : IVars :=
  { stateAfterVolumeControl iv with muteControl := some muteControl0 }

def stateAfterAddOutputStream (iv : IVars) : IVars :=
  deviceAddStream (stateAfterMuteControl iv) StreamRef.outputS

def stateAfterAddInputStream (iv : IVars) : IVars :=
  deviceAddStream (stateAfterAddOutputStream iv) StreamRef.inputS

def stateAfterAddVolume (iv : IVars) : IVars :=
  deviceAddControl (stateAfterAddInputStream iv) ControlRef.volumeC

def stateAfterAddMute (iv : IVars) : IVars :=
  deviceAddControl (stateAfterAddVolume iv) ControlRef.muteC

def stateAfterOutputBuffer (iv : IVars) : IVars :=
  { stateAfterAddMute iv with outputBuffer := some ioBuffer0 }

def stateAfterInputBuffer (iv : IVars) : IVars :=
  { stateAfterOutputBuffer iv with inputBuffer := some ioBuffer0 }

def stateAfterBindOutput (iv : IVars) : IVars :=
  streamBindBuffer (stateAfterInputBuffer iv) StreamRef.outputS BufferRef.outputB

def stateAfterBindInput (iv : IVars) : IVars :=
  streamBindBuffer (stateAfterBindOutput iv) StreamRef.inputS BufferRef.inputB

/- MacaroniAudioDriver::Start.  Returns the kern_return_t status, the new
ivars block, and the list of external calls issued, in order.  Every early
return in the source is one failing branch here; the returned trace is the
prefix of callSeq up to and including the failing call. -/
def MacaroniStart (env : StartEnv) (iv : IVars) : Nat × IVars × List ExtCall :=
  if env.superStartStatus ≠ kIOReturnSuccess then
    (env.superStartStatus, iv, callSeq.take 1)
  else if env.deviceCreateOK = false then
    (kIOReturnNoMemory, { iv with audioDevice := none }, callSeq.take 2)
  else if env.outputStreamCreateOK = false then
    (kIOReturnNoMemory, { stateAfterDevice iv with outputStream := none }, callSeq.take 3)
  else if env.inputStreamCreateOK = false then
    (kIOReturnNoMemory, { stateAfterOutputStream iv with inputStream := none }, callSeq.take 4)
  else if env.volumeControlCreateOK = false then
    (kIOReturnNoMemory, { stateAfterInputStream iv with volumeControl := none }, callSeq.take 5)
  else if env.muteControlCreateOK = false then
    (kIOReturnNoMemory, { stateAfterVolumeControl iv with muteControl := none }, callSeq.take 6)
  else if env.addOutputStreamStatus ≠ kIOReturnSuccess then
    (env.addOutputStreamStatus, stateAfterMuteControl iv, callSeq.take 7)
  else if env.addInputStreamStatus ≠ kIOReturnSuccess then
    (env.addInputStreamStatus, stateAfterAddOutputStream iv, callSeq.take 8)
  else if env.addVolumeControlStatus ≠ kIOReturnSuccess then
    (env.addVolumeControlStatus, stateAfterAddInputStream iv, callSeq.take 9)
  else if env.addMuteControlStatus ≠ kIOReturnSuccess then
    (env.addMuteControlStatus, stateAfterAddVolume iv, callSeq.take 10)
  else if env.addObjectStatus ≠ kIOReturnSuccess then
    (env.addObjectStatus, stateAfterAddMute iv, callSeq.take 11)
  else if env.outputBufferCreateStatus ≠ kIOReturnSuccess then
    (env.outputBufferCreateStatus, stateAfterAddMute iv, callSeq.take 12)
  else if env.inputBufferCreateStatus ≠ kIOReturnSuccess then
    (env.inputBufferCreateStatus, stateAfterOutputBuffer iv, callSeq.take 13)
  else if env.setOutputIOMemStatus ≠ kIOReturnSuccess then
    (env.setOutputIOMemStatus, stateAfterInputBuffer iv, callSeq.take 14)
  else if env.setInputIOMemStatus ≠ kIOReturnSuccess then
    (env.setInputIOMemStatus, stateAfterBindOutput iv, callSeq.take 15)
  else if env.ioStartStatus ≠ kIOReturnSuccess then
    (env.ioStartStatus, stateAfterBindInput iv, callSeq.take 16)
  else
    (kIOReturnSuccess, stateAfterBindInput iv, callSeq)

/- An environment in which every external call succeeds. -/
def envAllOK : StartEnv :=
  { superStartStatus := 0
    deviceCreateOK := true
    outputStreamCreateOK := true
    inputStreamCreateOK := true
    volumeControlCreateOK := true
    muteControlCreateOK := true
    addOutputStreamStatus := 0
    addInputStreamStatus := 0
    addVolumeControlStatus := 0
    addMuteControlStatus := 0
    addObjectStatus := 0
    outputBufferCreateStatus := 0
    inputBufferCreateStatus := 0
    setOutputIOMemStatus := 0
    setInputIOMemStatus := 0
    ioStartStatus := 0 }

/- An environment in which external call number k (0-based, in callSeq
order) fails and every other call succeeds.  Create calls fail by
returning null; status calls fail with code c. -/
def stepFail (k : Nat) (c : Nat) : StartEnv :=
  match k with
  | 0 => { envAllOK with superStartStatus := c }
  | 1 => { envAllOK with deviceCreateOK := false }
  | 2 => { envAllOK with outputStreamCreateOK := false }
  | 3 => { envAllOK with inputStreamCreateOK := false }
  | 4 => { envAllOK with volumeControlCreateOK := false }
  | 5 => { envAllOK with muteControlCreateOK := false }
  | 6 => { envAllOK with addOutputStreamStatus := c }
  | 7 => { envAllOK with addInputStreamStatus := c }
  | 8 => { envAllOK with addVolumeControlStatus := c }
  | 9 => { envAllOK with addMuteControlStatus := c }
  | 10 => { envAllOK with addObjectStatus := c }
  | 11 => { envAllOK with outputBufferCreateStatus := c }
  | 12 => { envAllOK with inputBufferCreateStatus := c }
  | 13 => { envAllOK with setOutputIOMemStatus := c }
  | 14 => { envAllOK with setInputIOMemStatus := c }
  | _ => { envAllOK with ioStartStatus := c }

/- Looks up a stream reference in the ivars block. -/
def resolveStream (iv : IVars) : StreamRef → Option AudioStream
  | StreamRef.outputS => iv.outputStream
  | StreamRef.inputS => iv.inputStream

def resolveBuffer (iv : IVars) : BufferRef → Option MemBuffer
  | BufferRef.outputB => iv.outputBuffer
  | BufferRef.inputB => iv.inputBuffer

/- Outcomes of the external calls made during Stop: the StopIO and
RemoveObject statuses are discarded by the source, and super Stop provides
the returned status. -/
structure StopEnv where
  superStopStatus : Nat
  deviceStopStatus : Nat
  removeObjectStatus : Nat

/- MacaroniAudioDriver::Stop.  When a device is present it issues StopIO
and RemoveObject on it (ignoring their statuses) and does not clear the
device field; it always returns the status of super Stop. -/
def MacaroniStop (env : StopEnv) (iv : IVars) : Nat × IVars × List ExtCall :=
  if iv.audioDevice.isSome then
    (env.superStopStatus, iv,
      [ExtCall.ioStop, ExtCall.removeObjectCall, ExtCall.superStopCall])
  else
    (env.superStopStatus, iv, [ExtCall.superStopCall])

def stopEnv0 : StopEnv :=
  { superStopStatus := 0, deviceStopStatus := 0, removeObjectStatus := 0 }

/- The objects the driver can own: the seven graph objects of the ivars
block plus the ivars block itself. -/
inductive OwnedObj
  | device
  | inputStreamObj
  | outputStreamObj
  | volumeControlObj
  | muteControlObj
  | inputBufferObj
  | outputBufferObj
  | stateBlock
deriving DecidableEq

/- The owned objects of a driver state: one entry per non-null shared
pointer in the ivars block, plus the ivars allocation itself when the
block exists. -/
def ownedObjs (iv : IVars) : List OwnedObj :=
  (if iv.audioDevice.isSome then [OwnedObj.device] else []) ++
  (if iv.inputStream.isSome then [OwnedObj.inputStreamObj] else []) ++
  (if iv.outputStream.isSome then [OwnedObj.outputStreamObj] else []) ++
  (if iv.volumeControl.isSome then [OwnedObj.volumeControlObj] else []) ++
  (if iv.muteControl.isSome then [OwnedObj.muteControlObj] else []) ++
  (if iv.inputBuffer.isSome then [OwnedObj.inputBufferObj] else []) ++
  (if iv.outputBuffer.isSome then [OwnedObj.outputBufferObj] else [])

def ownedObjsOpt : Option IVars → List OwnedObj
  | none => []
  | some iv => ownedObjs iv ++ [OwnedObj.stateBlock]

/- MacaroniAudioDriver::free.  Resets each shared pointer in the order the
source lists the reset calls (a reset of a null pointer releases nothing),
then deletes the ivars block.  Returns the new state and the objects
released, in release order. -/
def MacaroniFree : Option IVars → Option IVars × List OwnedObj
  | none => (none, [])
  | some iv =>
      (none,
        (if iv.audioDevice.isSome then [OwnedObj.device] else []) ++
        (if iv.inputStream.isSome then [OwnedObj.inputStreamObj] else []) ++
        (if iv.outputStream.isSome then [OwnedObj.outputStreamObj] else []) ++
        (if iv.volumeControl.isSome then [OwnedObj.volumeControlObj] else []) ++
        (if iv.muteControl.isSome then [OwnedObj.muteControlObj] else []) ++
        (if iv.inputBuffer.isSome then [OwnedObj.inputBufferObj] else []) ++
        (if iv.outputBuffer.isSome then [OwnedObj.outputBufferObj] else []) ++
        [OwnedObj.stateBlock])

/- Maps an external call of the Start trace to the owned object it
creates, when it creates one. -/
def createdObjOfCall : ExtCall → Option OwnedObj
  | ExtCall.deviceCreate => some OwnedObj.device
  | ExtCall.streamCreate StreamDirection.output => some OwnedObj.outputStreamObj
  | ExtCall.streamCreate StreamDirection.input => some OwnedObj.inputStreamObj
  | ExtCall.levelControlCreate => some OwnedObj.volumeControlObj
  | ExtCall.booleanControlCreate => some OwnedObj.muteControlObj
  | ExtCall.bufferCreate BufferRef.outputB => some OwnedObj.outputBufferObj
  | ExtCall.bufferCreate BufferRef.inputB => some OwnedObj.inputBufferObj
  | _ => none

/- Construction order of the owned objects: the ivars block is allocated
in init, then the graph objects are created in the order of the Start
call sequence. -/
def constructionOrder : List OwnedObj :=
  OwnedObj.stateBlock :: callSeq.filterMap createdObjOfCall

/- MacaroniAudioDriver::StartDevice: sets isRunning and returns success,
whatever the object id and flags are. -/
def StartDevice (iv : IVars) (objectID : Nat) (flags : Nat) : Nat × IVars :=
  (kIOReturnSuccess, { iv with isRunning := true })

/- MacaroniAudioDriver::StopDevice: clears isRunning and returns success. -/
def StopDevice (iv : IVars) (objectID : Nat) (flags : Nat) : Nat × IVars :=
  (kIOReturnSuccess, { iv with isRunning := false })

/- MacaroniAudioDriver::PerformDeviceConfigurationChange: returns success
and touches nothing. -/
def PerformDeviceConfigurationChange {A : Type} (iv : IVars)
    (objectID : Nat) (changeAction : Nat) (changeInfo : A) : Nat × IVars :=
  (kIOReturnSuccess, iv)

/- MacaroniAudioDriver::AbortDeviceConfigurationChange: returns success
and touches nothing. -/
def AbortDeviceConfigurationChange {A : Type} (iv : IVars)
    (objectID : Nat) (changeAction : Nat) (changeInfo : A) : Nat × IVars :=
  (kIOReturnSuccess, iv)

/- MacaroniAudioDriver::HandleChangedStreamFormat: returns success and
touches nothing. -/
def HandleChangedStreamFormat (iv : IVars) (objectID : Nat)
    (stream : Option StreamRef) (oldFormat newFormat : AudioFormat) : Nat × IVars :=
  (kIOReturnSuccess, iv)

/- Status of a control set-value request. -/
inductive ControlSetStatus
  | success
  | invalidControlValue
deriving DecidableEq

/-- Modelled from the spec: the range-validating set-value operation of a
level Control is implemented by the external audio framework
(IOUserAudioLevelControl), not by code in this repository; only the
creation of the control, with its range and settable flag, is in src.
The spec states that a set value operation validates the new value
against the range before committing, and that an out-of-range set fails
with InvalidControlValue and leaves the current value unchanged. -/
def SetControlValue (c : LevelControl) (v : ℚ) : ControlSetStatus × LevelControl :=
  if c.range.minDb ≤ v ∧ v ≤ c.range.maxDb then
    (ControlSetStatus.success, { c with value := v })
  else
    (ControlSetStatus.invalidControlValue, c)

/- Helper lemma: the isRunning flag is never written by Start, in any
environment and from any starting state.  Every branch state is a chain
of record updates and reductions that leave the flag untouched. -/
lemma macaroniStart_isRunning (env : StartEnv) (iv : IVars) :
    (MacaroniStart env iv).2.1.isRunning = iv.isRunning := by
  unfold MacaroniStart
  by_cases c0 : env.superStartStatus ≠ kIOReturnSuccess
  · rw [if_pos c0]
    try rfl
  rw [if_neg c0]
  by_cases c1 : env.deviceCreateOK = false
  · rw [if_pos c1]
    try rfl
  rw [if_neg c1]
  by_cases c2 : env.outputStreamCreateOK = false
  · rw [if_pos c2]
    try rfl
  rw [if_neg c2]
  by_cases c3 : env.inputStreamCreateOK = false
  · rw [if_pos c3]
    try rfl
  rw [if_neg c3]
  by_cases c4 : env.volumeControlCreateOK = false
  · rw [if_pos c4]
    try rfl
  rw [if_neg c4]
  by_cases c5 : env.muteControlCreateOK = false
  · rw [if_pos c5]
    try rfl
  rw [if_neg c5]
  by_cases c6 : env.addOutputStreamStatus ≠ kIOReturnSuccess
  · rw [if_pos c6]
    try rfl
  rw [if_neg c6]
  by_cases c7 : env.addInputStreamStatus ≠ kIOReturnSuccess
  · rw [if_pos c7]
    try rfl
  rw [if_neg c7]
  by_cases c8 : env.addVolumeControlStatus ≠ kIOReturnSuccess
  · rw [if_pos c8]
    try rfl
  rw [if_neg c8]
  by_cases c9 : env.addMuteControlStatus ≠ kIOReturnSuccess
  · rw [if_pos c9]
    try rfl
  rw [if_neg c9]
  by_cases c10 : env.addObjectStatus ≠ kIOReturnSuccess
  · rw [if_pos c10]
    try rfl
  rw [if_neg c10]
  by_cases c11 : env.outputBufferCreateStatus ≠ kIOReturnSuccess
  · rw [if_pos c11]
    try rfl
  rw [if_neg c11]
  by_cases c12 : env.inputBufferCreateStatus ≠ kIOReturnSuccess
  · rw [if_pos c12]
    try rfl
  rw [if_neg c12]
  by_cases c13 : env.setOutputIOMemStatus ≠ kIOReturnSuccess
  · rw [if_pos c13]
    try rfl
  rw [if_neg c13]
  by_cases c14 : env.setInputIOMemStatus ≠ kIOReturnSuccess
  · rw [if_pos c14]
    try rfl
  rw [if_neg c14]
  by_cases c15 : env.ioStartStatus ≠ kIOReturnSuccess
  · rw [if_pos c15]
    try rfl
  rw [if_neg c15]
  try rfl

/- Helper lemma: when Start returns success the final state and the trace
are fully determined. -/
lemma macaroniStart_success_characterization (env : StartEnv)
    (h : (MacaroniStart env initIVars).1 = kIOReturnSuccess) :
    MacaroniStart env initIVars = (kIOReturnSuccess, stateAfterBindInput initIVars, callSeq) := by
  unfold MacaroniStart at h ⊢
  by_cases c0 : env.superStartStatus ≠ kIOReturnSuccess
  · rw [if_pos c0] at h
    exact absurd h c0
  rw [if_neg c0] at h ⊢
  by_cases c1 : env.deviceCreateOK = false
  · rw [if_pos c1] at h
    exact absurd h (by decide)
  rw [if_neg c1] at h ⊢
  by_cases c2 : env.outputStreamCreateOK = false
  · rw [if_pos c2] at h
    exact absurd h (by decide)
  rw [if_neg c2] at h ⊢
  by_cases c3 : env.inputStreamCreateOK = false
  · rw [if_pos c3] at h
    exact absurd h (by decide)
  rw [if_neg c3] at h ⊢
  by_cases c4 : env.volumeControlCreateOK = false
  · rw [if_pos c4] at h
    exact absurd h (by decide)
  rw [if_neg c4] at h ⊢
  by_cases c5 : env.muteControlCreateOK = false
  · rw [if_pos c5] at h
    exact absurd h (by decide)
  rw [if_neg c5] at h ⊢
  by_cases c6 : env.addOutputStreamStatus ≠ kIOReturnSuccess
  · rw [if_pos c6] at h
    exact absurd h c6
  rw [if_neg c6] at h ⊢
  by_cases c7 : env.addInputStreamStatus ≠ kIOReturnSuccess
  · rw [if_pos c7] at h
    exact absurd h c7
  rw [if_neg c7] at h ⊢
  by_cases c8 : env.addVolumeControlStatus ≠ kIOReturnSuccess
  · rw [if_pos c8] at h
    exact absurd h c8
  rw [if_neg c8] at h ⊢
  by_cases c9 : env.addMuteControlStatus ≠ kIOReturnSuccess
  · rw [if_pos c9] at h
    exact absurd h c9
  rw [if_neg c9] at h ⊢
  by_cases c10 : env.addObjectStatus ≠ kIOReturnSuccess
  · rw [if_pos c10] at h
    exact absurd h c10
  rw [if_neg c10] at h ⊢
  by_cases c11 : env.outputBufferCreateStatus ≠ kIOReturnSuccess
  · rw [if_pos c11] at h
    exact absurd h c11
  rw [if_neg c11] at h ⊢
  by_cases c12 : env.inputBufferCreateStatus ≠ kIOReturnSuccess
  · rw [if_pos c12] at h
    exact absurd h c12
  rw [if_neg c12] at h ⊢
  by_cases c13 : env.setOutputIOMemStatus ≠ kIOReturnSuccess
  · rw [if_pos c13] at h
    exact absurd h c13
  rw [if_neg c13] at h ⊢
  by_cases c14 : env.setInputIOMemStatus ≠ kIOReturnSuccess
  · rw [if_pos c14] at h
    exact absurd h c14
  rw [if_neg c14] at h ⊢
  by_cases c15 : env.ioStartStatus ≠ kIOReturnSuccess
  · rw [if_pos c15] at h
    exact absurd h c15
  rw [if_neg c15] at h ⊢
  try rfl


/-- C1 (amended): Activate performs its construction steps in exactly the
fixed order of the spec list — create Device, build the shared format,
create the output Stream with its format, create the input Stream with its
format, create the volume and mute Controls, attach both streams and both
controls to the Device, register the Device, allocate the two Buffers,
bind each Buffer to its Stream, start I/O, advertise — where each step
must succeed before the next begins; for every failing step the call
returns that step status code immediately, executes none of the later
steps (the call trace is exactly the prefix of the fixed call sequence up
to the failing call) and performs no rollback of objects created by
earlier steps (they remain in the ivars block).  Amendment relative to the
claim: the Buffers are not attached when the Streams are created at steps
3 and 4; they are allocated at step 8 and bound at step 9. -/
theorem activate_fixed_order_and_short_circuit (c : Nat) (h : c ≠ kIOReturnSuccess) :
    MacaroniStart (stepFail 0 c) initIVars = (c, initIVars, callSeq.take 1) ∧
    MacaroniStart (stepFail 1 c) initIVars = (kIOReturnNoMemory, initIVars, callSeq.take 2) ∧
    MacaroniStart (stepFail 2 c) initIVars
      = (kIOReturnNoMemory, stateAfterDevice initIVars, callSeq.take 3) ∧
    MacaroniStart (stepFail 3 c) initIVars
      = (kIOReturnNoMemory, stateAfterOutputStream initIVars, callSeq.take 4) ∧
    MacaroniStart (stepFail 4 c) initIVars
      = (kIOReturnNoMemory, stateAfterInputStream initIVars, callSeq.take 5) ∧
    MacaroniStart (stepFail 5 c) initIVars
      = (kIOReturnNoMemory, stateAfterVolumeControl initIVars, callSeq.take 6) ∧
    MacaroniStart (stepFail 6 c) initIVars
      = (c, stateAfterMuteControl initIVars, callSeq.take 7) ∧
    MacaroniStart (stepFail 7 c) initIVars
      = (c, stateAfterAddOutputStream initIVars, callSeq.take 8) ∧
    MacaroniStart (stepFail 8 c) initIVars
      = (c, stateAfterAddInputStream initIVars, callSeq.take 9) ∧
    MacaroniStart (stepFail 9 c) initIVars
      = (c, stateAfterAddVolume initIVars, callSeq.take 10) ∧
    MacaroniStart (stepFail 10 c) initIVars
      = (c, stateAfterAddMute initIVars, callSeq.take 11) ∧
    MacaroniStart (stepFail 11 c) initIVars
      = (c, stateAfterAddMute initIVars, callSeq.take 12) ∧
    MacaroniStart (stepFail 12 c) initIVars
      = (c, stateAfterOutputBuffer initIVars, callSeq.take 13) ∧
    MacaroniStart (stepFail 13 c) initIVars
      = (c, stateAfterInputBuffer initIVars, callSeq.take 14) ∧
    MacaroniStart (stepFail 14 c) initIVars
      = (c, stateAfterBindOutput initIVars, callSeq.take 15) ∧
    MacaroniStart (stepFail 15 c) initIVars
      = (c, stateAfterBindInput initIVars, callSeq.take 16) ∧
    MacaroniStart envAllOK initIVars
      = (kIOReturnSuccess, stateAfterBindInput initIVars, callSeq) := by
  have h0 : c ≠ 0 := h
  refine ⟨?_, ?_, ?_, ?_, ?_, ?_, ?_, ?_, ?_, ?_, ?_, ?_, ?_, ?_, ?_, ?_, ?_⟩ <;>
    simp [MacaroniStart, stepFail, envAllOK, kIOReturnSuccess, h0] <;> try rfl

/-- C1 counterexample: the claim states that step 3 creates the output
Stream and attaches format and Buffer, and step 4 likewise for the input
Stream, before step 5 begins.  In the run whose first failure is the
output Buffer allocation of step 8, steps 3 and 4 completed, yet neither
stream has any Buffer attached: the Buffers do not exist before step 8 and
are bound only at step 9. -/
theorem activate_streams_without_buffer_before_allocation :
    (MacaroniStart (stepFail 11 1) initIVars).1 = 1 ∧
    ((MacaroniStart (stepFail 11 1) initIVars).2.1.outputStream).map AudioStream.ioBuffer
      = some none ∧
    ((MacaroniStart (stepFail 11 1) initIVars).2.1.inputStream).map AudioStream.ioBuffer
      = some none := by
  decide

/-- C1 witness: instantiates the short-circuit theorem at the failing
registration step (AddObject) with status code 42. -/
theorem activate_fixed_order_witness :
    (42 : Nat) ≠ kIOReturnSuccess ∧
    MacaroniStart (stepFail 10 42) initIVars
      = (42, stateAfterAddMute initIVars, callSeq.take 11) :=
  ⟨by decide,
    (activate_fixed_order_and_short_circuit 42 (by decide)).2.2.2.2.2.2.2.2.2.2.1⟩

/-- C2: after a successful Activate the Device carries exactly the output
and the input Stream (one of each direction), the output Stream is bound
to the output Buffer and the input Stream to the distinct input Buffer,
and both Buffers have size kBufferFrames × kBytesPerFrame with
kBufferFrames = 512. -/
theorem activate_success_streams_and_buffers (env : StartEnv)
    (h : (MacaroniStart env initIVars).1 = kIOReturnSuccess) :
    ((MacaroniStart env initIVars).2.1.audioDevice).map AudioDevice.streams
      = some [StreamRef.outputS, StreamRef.inputS] ∧
    (resolveStream (MacaroniStart env initIVars).2.1 StreamRef.outputS).map AudioStream.direction
      = some StreamDirection.output ∧
    (resolveStream (MacaroniStart env initIVars).2.1 StreamRef.inputS).map AudioStream.direction
      = some StreamDirection.input ∧
    (resolveStream (MacaroniStart env initIVars).2.1 StreamRef.outputS).map AudioStream.ioBuffer
      = some (some BufferRef.outputB) ∧
    (resolveStream (MacaroniStart env initIVars).2.1 StreamRef.inputS).map AudioStream.ioBuffer
      = some (some BufferRef.inputB) ∧
    BufferRef.outputB ≠ BufferRef.inputB ∧
    (resolveBuffer (MacaroniStart env initIVars).2.1 BufferRef.outputB).map MemBuffer.length
      = some (kBufferFrames * kBytesPerFrame) ∧
    (resolveBuffer (MacaroniStart env initIVars).2.1 BufferRef.inputB).map MemBuffer.length
      = some (kBufferFrames * kBytesPerFrame) ∧
    kBufferFrames = 512 := by
  rw [macaroniStart_success_characterization env h]
  decide

/-- C2 witness: the all-success environment satisfies the success
hypothesis and yields the stream list of the theorem. -/
theorem activate_success_streams_and_buffers_witness :
    (MacaroniStart envAllOK initIVars).1 = kIOReturnSuccess ∧
    ((MacaroniStart envAllOK initIVars).2.1.audioDevice).map AudioDevice.streams
      = some [StreamRef.outputS, StreamRef.inputS] :=
  ⟨by decide, (activate_success_streams_and_buffers envAllOK (by decide)).1⟩

/-- C3: the shared AudioFormat satisfies
bytesPerFrame = channelCount × (bitsPerChannel / 8) and
framesPerPacket = 1, and after a successful Activate every Stream
attached to the Device carries this same format, both as its current
format and as its only available format. -/
theorem streams_share_valid_format (env : StartEnv)
    (h : (MacaroniStart env initIVars).1 = kIOReturnSuccess) :
    deviceFormat.mBytesPerFrame
      = deviceFormat.mChannelsPerFrame * (deviceFormat.mBitsPerChannel / 8) ∧
    deviceFormat.mFramesPerPacket = 1 ∧
    deviceFormat.mSampleRate = kSampleRate ∧
    ∀ r ∈ (((MacaroniStart env initIVars).2.1.audioDevice).map AudioDevice.streams).getD [],
      (resolveStream (MacaroniStart env initIVars).2.1 r).map AudioStream.currentFormat
        = some (some deviceFormat) ∧
      (resolveStream (MacaroniStart env initIVars).2.1 r).map AudioStream.availableFormats
        = some [deviceFormat] := by
  rw [macaroniStart_success_characterization env h]
  refine ⟨by decide, rfl, rfl, ?_⟩
  intro r hr
  cases r <;> exact ⟨rfl, rfl⟩

/-- C3 witness: instantiates the format theorem at the all-success
environment and reads off the format arithmetic and the format of the
attached output Stream. -/
theorem streams_share_valid_format_witness :
    (MacaroniStart envAllOK initIVars).1 = kIOReturnSuccess ∧
    deviceFormat.mBytesPerFrame
      = deviceFormat.mChannelsPerFrame * (deviceFormat.mBitsPerChannel / 8) :=
  ⟨by decide, (streams_share_valid_format envAllOK (by decide)).1⟩

/-- C4 (amended): Activate does not write the process-wide running flag.
In every environment and from every state, Start leaves isRunning exactly
as it was; in particular when Start returns Success from the
post-initialization state the flag is still false.  The flag is set to
true only by the StartDevice start-of-I/O notification handler. -/
theorem activate_leaves_running_flag (env : StartEnv) (iv : IVars) :
    (MacaroniStart env iv).2.1.isRunning = iv.isRunning ∧
    ((MacaroniStart env initIVars).1 = kIOReturnSuccess →
      (MacaroniStart env initIVars).2.1.isRunning = false) ∧
    (StartDevice iv 1 0).2.isRunning = true := by
  refine ⟨macaroniStart_isRunning env iv, ?_, rfl⟩
  intro _
  exact (macaroniStart_isRunning env initIVars).trans rfl

/-- C4 counterexample: the all-success run of Activate returns Success
while the process-wide isRunning flag is still false at that moment,
contradicting the claim that the flag reflects the Running state when
Activate returns Success. -/
theorem activate_success_flag_still_false :
    (MacaroniStart envAllOK initIVars).1 = kIOReturnSuccess ∧
    (MacaroniStart envAllOK initIVars).2.1.isRunning = false := by
  decide

/-- C4 witness: instantiates the flag theorem at the all-success
environment, discharging the success hypothesis there. -/
theorem activate_leaves_running_flag_witness :
    (MacaroniStart envAllOK initIVars).2.1.isRunning = false ∧
    (StartDevice initIVars 1 0).2.isRunning = true :=
  ⟨(activate_leaves_running_flag envAllOK initIVars).2.1 (by decide),
    (activate_leaves_running_flag envAllOK initIVars).2.2⟩

/-- C5 counterexample: free releases the Device first — the release order
is device, input Stream, output Stream, volume Control, mute Control,
input Buffer, output Buffer, state block — which is not the reverse of the
construction order (state block, device, output Stream, input Stream,
volume Control, mute Control, output Buffer, input Buffer). -/
theorem free_not_reverse_construction_order :
    (MacaroniFree (some (stateAfterBindInput initIVars))).2 ≠ constructionOrder.reverse := by
  decide

/-- C5 (amended): free can be called from any driver state, releases every
owned object (all non-null shared pointers) and the state block, and
leaves zero owned objects afterwards; for the fully constructed graph the
release order is the fixed source order device, input Stream, output
Stream, volume Control, mute Control, input Buffer, output Buffer, state
block — not strict reverse-construction order. -/
theorem free_releases_everything (s : Option IVars) :
    (MacaroniFree s).1 = none ∧
    ownedObjsOpt (MacaroniFree s).1 = [] ∧
    (∀ o, o ∈ ownedObjsOpt s → o ∈ (MacaroniFree s).2) ∧
    (MacaroniFree (some (stateAfterBindInput initIVars))).2 =
      [OwnedObj.device, OwnedObj.inputStreamObj, OwnedObj.outputStreamObj,
       OwnedObj.volumeControlObj, OwnedObj.muteControlObj,
       OwnedObj.inputBufferObj, OwnedObj.outputBufferObj, OwnedObj.stateBlock] := by
  refine ⟨?_, ?_, ?_, by decide⟩
  · cases s <;> rfl
  · cases s <;> rfl
  · intro o ho
    cases s with
    | none => simp [ownedObjsOpt] at ho
    | some iv => exact ho

/-- C5 witness: instantiates the release theorem at the fully constructed
state: the Device is owned there and is released by free. -/
theorem free_releases_everything_witness :
    OwnedObj.device ∈ ownedObjsOpt (some (stateAfterBindInput initIVars)) ∧
    OwnedObj.device ∈ (MacaroniFree (some (stateAfterBindInput initIVars))).2 :=
  ⟨by decide,
    (free_releases_everything (some (stateAfterBindInput initIVars))).2.2.1
      OwnedObj.device (by decide)⟩

/-- C6 counterexample: with the Device present, the first Deactivate does
not clear the Device pointer, so the second consecutive Deactivate issues
StopIO and RemoveObject on the Device again — contradicting the claim
that the second call does not stop or withdraw the Device a second time. -/
theorem deactivate_second_call_repeats_device_ops :
    (MacaroniStop stopEnv0 (stateAfterBindInput initIVars)).1 = kIOReturnSuccess ∧
    (MacaroniStop stopEnv0 (stateAfterBindInput initIVars)).2.2
      = [ExtCall.ioStop, ExtCall.removeObjectCall, ExtCall.superStopCall] ∧
    (MacaroniStop stopEnv0 ((MacaroniStop stopEnv0 (stateAfterBindInput initIVars)).2.1)).1
      = kIOReturnSuccess ∧
    (MacaroniStop stopEnv0 ((MacaroniStop stopEnv0 (stateAfterBindInput initIVars)).2.1)).2.2
      = [ExtCall.ioStop, ExtCall.removeObjectCall, ExtCall.superStopCall] := by
  decide

/-- C6 (amended): Deactivate returns the superclass Stop status (Success)
on every call and leaves the ivars block unchanged, so two consecutive
calls both return Success; when the Device is absent no device operations
are performed; but the Device pointer is not cleared, so a second call
repeats the StopIO and RemoveObject calls performed by the first. -/
theorem deactivate_status_and_trace (env : StopEnv) (iv : IVars) :
    (MacaroniStop env iv).1 = env.superStopStatus ∧
    (MacaroniStop env iv).2.1 = iv ∧
    (MacaroniStop env ((MacaroniStop env iv).2.1)).1 = env.superStopStatus ∧
    (MacaroniStop env ((MacaroniStop env iv).2.1)).2.2 = (MacaroniStop env iv).2.2 ∧
    (iv.audioDevice = none →
      (MacaroniStop env iv).2.2 = [ExtCall.superStopCall]) ∧
    (iv.audioDevice.isSome = true →
      (MacaroniStop env iv).2.2
        = [ExtCall.ioStop, ExtCall.removeObjectCall, ExtCall.superStopCall]) := by
  cases hd : iv.audioDevice <;> simp [MacaroniStop, hd]

/-- C6 witness: instantiates the Deactivate theorem at the fully
constructed state, where the Device is present. -/
theorem deactivate_status_and_trace_witness :
    ((stateAfterBindInput initIVars).audioDevice.isSome = true) ∧
    (MacaroniStop stopEnv0 (stateAfterBindInput initIVars)).2.2
      = [ExtCall.ioStop, ExtCall.removeObjectCall, ExtCall.superStopCall] :=
  ⟨by decide,
    (deactivate_status_and_trace stopEnv0 (stateAfterBindInput initIVars)).2.2.2.2.2
      (by decide)⟩

/-- C7: for every object id and flags and from every state, StartDevice
sets the process-wide isRunning flag to true and StopDevice sets it to
false, both return Success, and neither modifies any other component of
the driver state: device graph, streams, controls, buffers, volume level
and mute flag are all unchanged. -/
theorem start_stop_device_set_flag_only (iv : IVars) (objectID flags : Nat) :
    StartDevice iv objectID flags = (kIOReturnSuccess, { iv with isRunning := true }) ∧
    StopDevice iv objectID flags = (kIOReturnSuccess, { iv with isRunning := false }) ∧
    (StartDevice iv objectID flags).2.audioDevice = iv.audioDevice ∧
    (StartDevice iv objectID flags).2.inputStream = iv.inputStream ∧
    (StartDevice iv objectID flags).2.outputStream = iv.outputStream ∧
    (StartDevice iv objectID flags).2.volumeControl = iv.volumeControl ∧
    (StartDevice iv objectID flags).2.muteControl = iv.muteControl ∧
    (StartDevice iv objectID flags).2.inputBuffer = iv.inputBuffer ∧
    (StartDevice iv objectID flags).2.outputBuffer = iv.outputBuffer ∧
    (StartDevice iv objectID flags).2.volumeLevel = iv.volumeLevel ∧
    (StartDevice iv objectID flags).2.isMuted = iv.isMuted ∧
    (StartDevice iv objectID flags).2.isRunning = true ∧
    (StopDevice iv objectID flags).2.audioDevice = iv.audioDevice ∧
    (StopDevice iv objectID flags).2.inputStream = iv.inputStream ∧
    (StopDevice iv objectID flags).2.outputStream = iv.outputStream ∧
    (StopDevice iv objectID flags).2.volumeControl = iv.volumeControl ∧
    (StopDevice iv objectID flags).2.muteControl = iv.muteControl ∧
    (StopDevice iv objectID flags).2.inputBuffer = iv.inputBuffer ∧
    (StopDevice iv objectID flags).2.outputBuffer = iv.outputBuffer ∧
    (StopDevice iv objectID flags).2.volumeLevel = iv.volumeLevel ∧
    (StopDevice iv objectID flags).2.isMuted = iv.isMuted ∧
    (StopDevice iv objectID flags).2.isRunning = false :=
  ⟨rfl, rfl, rfl, rfl, rfl, rfl, rfl, rfl, rfl, rfl, rfl, rfl,
    rfl, rfl, rfl, rfl, rfl, rfl, rfl, rfl, rfl, rfl⟩

/-- C8: for every object id, change action, change info and format
arguments, the configuration-change, abort-configuration-change and
stream-format-changed handlers return Success and leave the entire driver
state unchanged. -/
theorem notification_handlers_success_no_mutation {A : Type} (iv : IVars)
    (objectID changeAction : Nat) (info : A) (st : Option StreamRef)
    (oldF newF : AudioFormat) :
    PerformDeviceConfigurationChange iv objectID changeAction info = (kIOReturnSuccess, iv) ∧
    AbortDeviceConfigurationChange iv objectID changeAction info = (kIOReturnSuccess, iv) ∧
    HandleChangedStreamFormat iv objectID st oldF newF = (kIOReturnSuccess, iv) :=
  ⟨rfl, rfl, rfl⟩

/-- C9: on the volume control created by the driver (range -96 dB to 0 dB,
settable, initial value 0), SetControlValue succeeds for every value
inside the range, committing the new value, and fails with
InvalidControlValue for every value outside the range, leaving the
current value unchanged. -/
theorem volume_set_value_range_checked (v : ℚ) :
    ((-96 : ℚ) ≤ v ∧ v ≤ 0 →
      SetControlValue volumeControl0 v
        = (ControlSetStatus.success, { volumeControl0 with value := v })) ∧
    (¬ ((-96 : ℚ) ≤ v ∧ v ≤ 0) →
      SetControlValue volumeControl0 v
        = (ControlSetStatus.invalidControlValue, volumeControl0)) := by
  constructor <;> intro hv <;> simp [SetControlValue, volumeControl0, hv]

/-- C9 witness: the value -96 succeeds and the value +1 fails with
InvalidControlValue, leaving the control unchanged. -/
theorem volume_set_value_range_checked_witness :
    SetControlValue volumeControl0 (-96)
      = (ControlSetStatus.success, { volumeControl0 with value := (-96 : ℚ) }) ∧
    SetControlValue volumeControl0 1
      = (ControlSetStatus.invalidControlValue, volumeControl0) :=
  ⟨(volume_set_value_range_checked (-96)).1 (by norm_num),
    (volume_set_value_range_checked 1).2 (by norm_num)⟩

/-- C10: the start-I/O and stop-I/O notification handlers ignore their
arguments: from any state, any two object ids and any two flag values
yield the same returned status and the same resulting state. -/
theorem io_notifications_argument_independent (iv : IVars)
    (id1 flags1 id2 flags2 : Nat) :
    StartDevice iv id1 flags1 = StartDevice iv id2 flags2 ∧
    StopDevice iv id1 flags1 = StopDevice iv id2 flags2 :=
  ⟨rfl, rfl⟩
